import Mathlib

/-!
Verification development for the gtb renderer (src/gtb/gtb.cpp).

The definitions below are a shallow embedding of the C++ source:
* the physical-device selection loop of `application::vk_create_device_objects`
  (gtb.cpp lines 834-944),
* `application::get_memory_type` (lines 2128-2143),
* `gtb::align_up` (lines 121-124) and the per-draw uniform-offset sequence of
  `application::draw` (lines 2195-2214),
* `application::create_static_buffer` (lines 1910-1942) and
  `application::create_texture` (lines 1983-2107) with Vulkan-call failure
  injected explicitly (a C++ exception from a `vk::` call propagates out of
  those functions),
* the event traces of `application::draw` (lines 2150-2244),
  `application::per_frame_init` (lines 1242-1279), `application::cleanup`
  (lines 639-656) and `application::vk_cleanup` (lines 720-755),
* `application::gltf_component_size` (lines 1856-1874) and the `first_index`
  computation of `application::gltf_load_ibo` (line 1697).

Machine integers (`uint32_t`) are modelled as `Nat` with explicit `% 2^32`
where the C computation can wrap.
-/

namespace Gtb

/-! ## Vulkan enumeration values used by the selection loop -/

/-- `vk::Format`; the source only distinguishes `eUndefined`, `eB8G8R8A8Unorm`
and `eD32Sfloat`, all other values are opaque. -/
inductive VkFormat where
  | undefined
  | b8g8r8a8Unorm
  | d32Sfloat
  | other (code : Nat)
deriving DecidableEq, Repr

/-- `vk::ColorSpaceKHR`; the source only distinguishes `eSrgbNonlinear`. -/
inductive VkColorSpace where
  | srgbNonlinear
  | other (code : Nat)
deriving DecidableEq, Repr

/-- `vk::PresentModeKHR`; the source only distinguishes `eMailbox`. -/
inductive VkPresentMode where
  | mailbox
  | immediate
  | fifo
  | other (code : Nat)
deriving DecidableEq, Repr

/-- `vk::PhysicalDeviceType`; the source only distinguishes `eDiscreteGpu`. -/
inductive VkDeviceType where
  | discreteGpu
  | integratedGpu
  | other (code : Nat)
deriving DecidableEq, Repr

/-- `vk::QueueFlagBits::eGraphics | vk::QueueFlagBits::eCompute`
(bit values 0x1 and 0x2 of `VkQueueFlagBits`). -/
def graphics_and_compute : Nat := 1 ||| 2

/-- One entry of `getQueueFamilyProperties` together with the per-family
`getSurfaceSupportKHR` answer for the window surface. -/
structure QueueFamily where
  queueFlags : Nat
  surfaceSupport : Bool
deriving DecidableEq, Repr

/-- One entry of `getSurfaceFormatsKHR`. -/
structure SurfaceFormat where
  format : VkFormat
  colorSpace : VkColorSpace
deriving DecidableEq, Repr

/-- Everything the selection loop of `vk_create_device_objects` queries about
one enumerated `vk::PhysicalDevice`. -/
structure Adapter where
  extensions : List String
  queueFamilies : List QueueFamily
  surfaceFormats : List SurfaceFormat
  presentModes : List VkPresentMode
  deviceType : VkDeviceType
deriving DecidableEq, Repr

/-- gtb.cpp lines 858-862: `found_extensions` accumulated with `std::count`
over `required_extensions` for each supported extension name. -/
def found_extensions (required : List String) (a : Adapter) : Nat :=
  (a.extensions.map (fun e => required.count e)).sum

/-- gtb.cpp lines 874-881: the first queue-family index whose flags contain
graphics and compute and which can present to the surface; equals
`a.queueFamilies.length` when no family qualifies, exactly like the C loop
counter after an unsuccessful scan. -/
def find_queue_family_from (qs : List QueueFamily) (i : Nat) : Nat :=
  match qs with
  | [] => i
  | q :: rest =>
    if (q.queueFlags &&& graphics_and_compute = graphics_and_compute) ∧ q.surfaceSupport then i
    else find_queue_family_from rest (i + 1)

/-- The scan of gtb.cpp lines 874-881 started at index 0. -/
def find_queue_family (a : Adapter) : Nat :=
  find_queue_family_from a.queueFamilies 0

/-- gtb.cpp lines 893-902: accept either a single reported `eUndefined` format
or some `eB8G8R8A8Unorm`/`eSrgbNonlinear` entry. -/
def found_surface_format (a : Adapter) : Bool :=
  (a.surfaceFormats.length == 1 &&
    match a.surfaceFormats.head? with
    | some f => f.format == VkFormat.undefined
    | none => false)
  || a.surfaceFormats.any
      (fun f => f.format == VkFormat.b8g8r8a8Unorm && f.colorSpace == VkColorSpace.srgbNonlinear)

/-- gtb.cpp lines 915-921: mailbox present mode must be supported. -/
def found_present_mode (a : Adapter) : Bool :=
  a.presentModes.any (fun m => m == VkPresentMode.mailbox)

/-- The conjunction of the four checks (plus the emptiness guards) of the body
of the selection loop, gtb.cpp lines 851-924, in source order. An adapter for
which this is `true` reaches line 927 (`found_physical_device = ...`). -/
def adapter_qualifies (required : List String) (a : Adapter) : Bool :=
  if a.extensions.isEmpty then false
  else if found_extensions required a != required.length then false
  else if a.queueFamilies.isEmpty then false
  else if find_queue_family a == a.queueFamilies.length then false
  else if a.surfaceFormats.isEmpty then false
  else if !found_surface_format a then false
  else if a.presentModes.isEmpty then false
  else if !found_present_mode a then false
  else true

/-- The `for (vk::PhysicalDevice& physical_device : physical_devices)` loop of
gtb.cpp lines 851-935, carrying the loop state: `found` is
`found_physical_device` (initially a null handle, modelled as `none`) and
`qfi` is `queue_family_index` (initially `uint32_t` max). Each `continue` of
the source is one of the early recursive calls; note that `queue_family_index`
is updated by the queue scan even when a later check rejects the adapter,
exactly as in the source. -/
def select_loop (required : List String) :
    List Adapter → Option Adapter → Nat → Option Adapter × Nat
  | [], found, qfi => (found, qfi)
  | a :: rest, found, qfi =>
    if a.extensions.isEmpty then select_loop required rest found qfi
    else if found_extensions required a != required.length then select_loop required rest found qfi
    else if a.queueFamilies.isEmpty then select_loop required rest found qfi
    else
      let qfi' := find_queue_family a
      if qfi' == a.queueFamilies.length then select_loop required rest found qfi'
      else if a.surfaceFormats.isEmpty then select_loop required rest found qfi'
      else if !found_surface_format a then select_loop required rest found qfi'
      else if a.presentModes.isEmpty then select_loop required rest found qfi'
      else if !found_present_mode a then select_loop required rest found qfi'
      else if a.deviceType = VkDeviceType.discreteGpu then (some a, qfi')
      else select_loop required rest (some a) qfi'

/-- gtb.cpp line 836: `queue_family_index = std::numeric_limits<uint32_t>::max()`. -/
def uint32_max : Nat := 4294967295

/-- The adapter-selection part of `application::vk_create_device_objects`,
gtb.cpp lines 834-944: enumerate, fail if none enumerated, run the loop, and
either keep the found device and queue-family index or throw the capability
exception of lines 941-944. The `Except` error carries the
`errinfo_capability_description` string of the thrown `capability_exception`. -/
def select_physical_device (required : List String) (adapters : List Adapter) :
    Except String (Adapter × Nat) :=
  if adapters.isEmpty then
    Except.error "No Vulkan physical devices enumerated."
  else
    match select_loop required adapters none uint32_max with
    | (some a, qfi) => Except.ok (a, qfi)
    | (none, _) => Except.error "No Vulkan physical devices meets requirements."

/-! ## Characterization of the selection loop -/

/-- The selection loop with the `queue_family_index` bookkeeping stripped:
only the evolution of `found_physical_device` remains. Proved equal to the
first component of `select_loop` below. -/
def select_adapter_loop (required : List String) :
    List Adapter → Option Adapter → Option Adapter
  | [], found => found
  | a :: rest, found =>
    if adapter_qualifies required a then
      if a.deviceType = VkDeviceType.discreteGpu then some a
      else select_adapter_loop required rest (some a)
    else select_adapter_loop required rest found

lemma select_loop_fst (required : List String) :
    ∀ (as : List Adapter) (found : Option Adapter) (qfi : Nat),
    (select_loop required as found qfi).1 = select_adapter_loop required as found := by
  intro as
  induction as with
  | nil => intro found qfi; rfl
  | cons a rest ih =>
    intro found qfi
    simp only [select_loop, select_adapter_loop, adapter_qualifies]
    by_cases h1 : a.extensions.isEmpty
    · simp [h1, ih]
    · simp only [h1, Bool.false_eq_true, if_false, if_neg]
      by_cases h2 : found_extensions required a != required.length
      · simp [h2, ih]
      · simp only [h2, Bool.false_eq_true, if_false, if_neg]
        by_cases h3 : a.queueFamilies.isEmpty
        · simp [h3, ih]
        · simp only [h3, Bool.false_eq_true, if_false, if_neg]
          by_cases h4 : find_queue_family a == a.queueFamilies.length
          · simp [h4, ih]
          · simp only [h4, Bool.false_eq_true, if_false, if_neg]
            by_cases h5 : a.surfaceFormats.isEmpty
            · simp [h5, ih]
            · simp only [h5, Bool.false_eq_true, if_false, if_neg]
              by_cases h6 : !found_surface_format a
              · simp [h6, ih]
              · simp only [h6, Bool.false_eq_true, if_false, if_neg]
                by_cases h7 : a.presentModes.isEmpty
                · simp [h7, ih]
                · simp only [h7, Bool.false_eq_true, if_false, if_neg]
                  by_cases h8 : !found_present_mode a
                  · simp [h8, ih]
                  · simp only [h8, Bool.false_eq_true, if_false, if_neg]
                    by_cases h9 : a.deviceType = VkDeviceType.discreteGpu
                    · simp [h9]
                    · simp [h9, ih]

/-- Whether an adapter reports `vk::PhysicalDeviceType::eDiscreteGpu`
(gtb.cpp line 932). -/
def is_discrete (a : Adapter) : Bool := decide (a.deviceType = VkDeviceType.discreteGpu)

/-- The selection policy the loop of gtb.cpp lines 851-935 actually
implements: the first qualifying adapter of the discrete device class, if any
qualifying discrete adapter exists; otherwise the last qualifying adapter in
enumeration order (each qualifying adapter overwrites
`found_physical_device`, and only a discrete one stops the scan). -/
def negotiated_adapter (required : List String) (adapters : List Adapter) : Option Adapter :=
  match (adapters.filter (adapter_qualifies required)).find? is_discrete with
  | some d => some d
  | none => (adapters.filter (adapter_qualifies required)).getLast?

lemma select_adapter_loop_eq (required : List String) :
    ∀ (as : List Adapter) (found : Option Adapter),
    select_adapter_loop required as found =
      match (as.filter (adapter_qualifies required)).find? is_discrete with
      | some d => some d
      | none =>
        match (as.filter (adapter_qualifies required)).getLast? with
        | some l => some l
        | none => found := by
  intro as
  induction as with
  | nil => intro found; rfl
  | cons a rest ih =>
    intro found
    by_cases hq : adapter_qualifies required a
    · rw [select_adapter_loop]
      rw [if_pos hq, List.filter_cons_of_pos hq]
      by_cases hd : a.deviceType = VkDeviceType.discreteGpu
      · rw [if_pos hd]
        have hp : is_discrete a = true := by simp [is_discrete, hd]
        simp [List.find?_cons, hp]
      · rw [if_neg hd]
        have hp : is_discrete a = false := by simp [is_discrete, hd]
        rw [ih (some a)]
        rcases hf : (rest.filter (adapter_qualifies required)).find? is_discrete with _ | d
        · rcases hfl : rest.filter (adapter_qualifies required) with _ | ⟨b, t⟩
          · simp [List.find?_cons, hp, hf, hfl]
          · rw [hfl] at hf
            simp only [List.find?_cons] at hf
            simp only [hfl, List.find?_cons, hp, List.getLast?_cons_cons]
            rw [hf]
            rcases hgl : (b :: t).getLast? with _ | l
            · simp at hgl
            · simp [hgl]
        · simp [List.find?_cons, hp, hf]
    · rw [select_adapter_loop]
      rw [if_neg hq, List.filter_cons_of_neg hq, ih found]

lemma select_adapter_loop_none (required : List String) (as : List Adapter) :
    select_adapter_loop required as none = negotiated_adapter required as := by
  rw [select_adapter_loop_eq, negotiated_adapter]
  rcases (as.filter (adapter_qualifies required)).find? is_discrete with _ | d
  · rcases (as.filter (adapter_qualifies required)).getLast? with _ | l <;> rfl
  · rfl

/-- As soon as some adapter qualifies, selection succeeds and returns the
adapter described by `negotiated_adapter`. -/
lemma select_physical_device_of_filter_ne_nil (required : List String) (adapters : List Adapter)
    (h : adapters.filter (adapter_qualifies required) ≠ []) :
    ∃ a qfi, select_physical_device required adapters = Except.ok (a, qfi) ∧
      negotiated_adapter required adapters = some a := by
  have hne : adapters ≠ [] := by
    intro he; exact h (by simp [he])
  have hfst := select_loop_fst required adapters none uint32_max
  rw [select_adapter_loop_none] at hfst
  rcases hsl : select_loop required adapters none uint32_max with ⟨fnd, qfi⟩
  rw [hsl] at hfst
  have hng : negotiated_adapter required adapters ≠ none := by
    rw [negotiated_adapter]
    rcases hfd : (adapters.filter (adapter_qualifies required)).find? is_discrete with _ | d
    · rcases hgl : (adapters.filter (adapter_qualifies required)).getLast? with _ | l
      · rw [List.getLast?_eq_none_iff] at hgl
        exact absurd hgl h
      · simp
    · simp
  rcases hfn : negotiated_adapter required adapters with _ | a
  · exact absurd hfn hng
  · refine ⟨a, qfi, ?_, rfl⟩
    rw [select_physical_device, if_neg (by simp [hne]), hsl]
    simp only at hfst
    rw [hfst, hfn]

/-! ## Concrete adapters for the counterexamples and witnesses -/

/-- The required device extension list built in `vk_init` (gtb.cpp line 712):
just `VK_KHR_SWAPCHAIN_EXTENSION_NAME`. -/
def reqExt : List String := ["VK_KHR_swapchain"]

/-- An integrated adapter passing all four checks. -/
def qInt1 : Adapter :=
  { extensions := ["VK_KHR_swapchain"]
    queueFamilies := [⟨3, true⟩]
    surfaceFormats := [⟨VkFormat.b8g8r8a8Unorm, VkColorSpace.srgbNonlinear⟩]
    presentModes := [VkPresentMode.mailbox]
    deviceType := VkDeviceType.integratedGpu }

/-- A second, distinct integrated adapter passing all four checks. -/
def qInt2 : Adapter := { qInt1 with extensions := ["VK_KHR_swapchain", "VK_EXT_other"] }

/-- A discrete adapter passing all four checks. -/
def qDisc : Adapter := { qInt1 with deviceType := VkDeviceType.discreteGpu }

/-- An adapter missing the swap-chain extension (all other checks pass). -/
def extFail : Adapter := { qInt1 with extensions := ["VK_EXT_other"] }

/-- An adapter failing only the queue-family check: its single queue family
has graphics but not compute support. -/
def queueFail : Adapter := { qInt1 with queueFamilies := [⟨1, true⟩] }

deriving instance DecidableEq for Except

/-! ## Claim C1 -/

/-- C1 counterexample: both `qInt1` and `qInt2` qualify and neither is
discrete, yet selection returns the *later* adapter `qInt2` — the later
qualifying non-discrete adapter overrides the earlier qualifying choice,
contradicting the claim that the first qualifying adapter wins. -/
theorem first_qualifying_adapter_is_overridden :
    adapter_qualifies reqExt qInt1 = true ∧
    qInt1 ≠ qInt2 ∧
    qInt2.deviceType ≠ VkDeviceType.discreteGpu ∧
    select_physical_device reqExt [qInt1, qInt2] = Except.ok (qInt2, 0) := by
  decide

/-- C1 (amended): whenever at least one adapter qualifies, the selected
adapter is the first qualifying adapter of the discrete device class if any
qualifying discrete adapter exists, and otherwise the *last* qualifying
adapter in enumeration order — each later qualifying adapter overrides the
current choice, and only a discrete one stops the scan. -/
theorem adapter_selection_policy (required : List String) (adapters : List Adapter)
    (h : adapters.filter (adapter_qualifies required) ≠ []) :
    ∃ a qfi, select_physical_device required adapters = Except.ok (a, qfi) ∧
      negotiated_adapter required adapters = some a :=
  select_physical_device_of_filter_ne_nil required adapters h

/-- Witness for C1's amended theorem at the two-adapter list. -/
theorem adapter_selection_policy_witness :
    [qInt1, qInt2].filter (adapter_qualifies reqExt) ≠ [] ∧
    (∃ a qfi, select_physical_device reqExt [qInt1, qInt2] = Except.ok (a, qfi) ∧
      negotiated_adapter reqExt [qInt1, qInt2] = some a) :=
  And.intro (by decide) (adapter_selection_policy reqExt [qInt1, qInt2] (by decide))

/-! ## Claim C2 -/

/-- C2 counterexample: `queueFail` fails *only* the queue-family requirement
(its extension, surface-format and present-mode checks all pass), yet the
selection error is the same generic capability string produced when an
adapter fails the extension check — the message does not identify the queue
requirement (or any category) specifically. -/
theorem exhaustion_error_is_generic :
    found_extensions reqExt queueFail = reqExt.length ∧
    find_queue_family queueFail = queueFail.queueFamilies.length ∧
    found_surface_format queueFail = true ∧
    found_present_mode queueFail = true ∧
    select_physical_device reqExt [queueFail] =
      Except.error "No Vulkan physical devices meets requirements." ∧
    select_physical_device reqExt [extFail] =
      Except.error "No Vulkan physical devices meets requirements." := by
  decide

/-- C2 (amended): when zero adapters qualify, selection fails with a
capability error, but the message distinguishes only "no adapters enumerated
at all" from the generic "none meets requirements"; it never names the
specific unmet requirement category (extensions vs. queue vs. format vs.
present mode). -/
theorem exhaustion_error_cases (required : List String) (adapters : List Adapter) :
    (adapters = [] →
      select_physical_device required adapters =
        Except.error "No Vulkan physical devices enumerated.") ∧
    (adapters ≠ [] → (∀ a ∈ adapters, adapter_qualifies required a = false) →
      select_physical_device required adapters =
        Except.error "No Vulkan physical devices meets requirements.") := by
  constructor
  · intro he; subst he; rfl
  · intro hne hall
    have hfil : adapters.filter (adapter_qualifies required) = [] := by
      rw [List.filter_eq_nil_iff]
      intro a ha
      simp [hall a ha]
    have hfst := select_loop_fst required adapters none uint32_max
    rw [select_adapter_loop_none, negotiated_adapter, hfil] at hfst
    simp only [List.find?_nil, List.getLast?_nil] at hfst
    rcases hsl : select_loop required adapters none uint32_max with ⟨fnd, qfi⟩
    rw [hsl] at hfst
    simp only at hfst
    rw [select_physical_device, if_neg (by simp [hne]), hsl, hfst]

/-- Witness for C2's amended theorem: the empty list and a list whose single
adapter fails only the queue requirement. -/
theorem exhaustion_error_cases_witness :
    ([queueFail] ≠ ([] : List Adapter) ∧ ∀ a ∈ [queueFail], adapter_qualifies reqExt a = false) ∧
    (([] : List Adapter) = [] →
      select_physical_device reqExt [] = Except.error "No Vulkan physical devices enumerated.") ∧
    (([queueFail] : List Adapter) ≠ [] → (∀ a ∈ [queueFail], adapter_qualifies reqExt a = false) →
      select_physical_device reqExt [queueFail] =
        Except.error "No Vulkan physical devices meets requirements.") :=
  And.intro (And.intro (by decide) (by decide))
    (And.intro (exhaustion_error_cases reqExt []).1 (exhaustion_error_cases reqExt [queueFail]).2)

/-! ## Claim C7 -/

/-- C7: whenever some enumerated adapter both qualifies and is of the
discrete device class, the selected adapter is discrete, regardless of where
it appears in enumeration order. -/
theorem discrete_adapter_always_selected (required : List String) (adapters : List Adapter)
    (h : ∃ a ∈ adapters, adapter_qualifies required a = true ∧
        a.deviceType = VkDeviceType.discreteGpu) :
    ∃ a qfi, select_physical_device required adapters = Except.ok (a, qfi) ∧
      a.deviceType = VkDeviceType.discreteGpu := by
  rcases h with ⟨w, hw, hwq, hwd⟩
  have hmem : w ∈ adapters.filter (adapter_qualifies required) :=
    List.mem_filter.mpr ⟨hw, hwq⟩
  have hne : adapters.filter (adapter_qualifies required) ≠ [] :=
    List.ne_nil_of_mem hmem
  obtain ⟨a, qfi, hok, hneg⟩ := select_physical_device_of_filter_ne_nil required adapters hne
  refine ⟨a, qfi, hok, ?_⟩
  rw [negotiated_adapter] at hneg
  rcases hfd : (adapters.filter (adapter_qualifies required)).find? is_discrete with _ | d
  · rw [List.find?_eq_none] at hfd
    exact absurd (by simp [is_discrete, hwd]) (hfd w hmem)
  · have hpd := List.find?_some hfd
    rw [hfd] at hneg
    simp only [Option.some.injEq] at hneg
    subst hneg
    simpa [is_discrete] using hpd

/-- Witness for C7 at the claim's concrete scenario: one adapter missing the
swap-chain extension, one qualifying integrated GPU, one qualifying discrete
GPU — a discrete adapter is selected. -/
theorem discrete_adapter_always_selected_witness :
    (∃ a ∈ [extFail, qInt1, qDisc], adapter_qualifies reqExt a = true ∧
        a.deviceType = VkDeviceType.discreteGpu) ∧
    (∃ a qfi, select_physical_device reqExt [extFail, qInt1, qDisc] = Except.ok (a, qfi) ∧
      a.deviceType = VkDeviceType.discreteGpu) :=
  And.intro (by decide)
    (discrete_adapter_always_selected reqExt [extFail, qInt1, qDisc] (by decide))

/-! ## get_memory_type (gtb.cpp lines 2128-2143) -/

/-- Count of trailing zero bits: the index MSVC `_BitScanForward` stores for
a nonzero argument (the index of the lowest set bit). -/
def ctz (n : Nat) : Nat :=
  if h : n = 0 then 0
  else if n % 2 = 1 then 0
  else ctz (n / 2) + 1
decreasing_by exact Nat.div_lt_self (Nat.pos_of_ne_zero h) (by norm_num)

lemma ctz_testBit : ∀ n : Nat, n ≠ 0 → n.testBit (ctz n) = true := by
  intro n
  induction n using Nat.strong_induction_on with
  | _ n ih =>
    intro hn
    rw [ctz, dif_neg hn]
    by_cases hp : n % 2 = 1
    · simp [hp, Nat.testBit_zero]
    · rw [if_neg hp]
      have hev : n % 2 = 0 := Nat.mod_two_eq_zero_or_one n |>.resolve_right hp
      have hhalf : n / 2 ≠ 0 := by
        intro h0
        have := Nat.div_add_mod n 2
        rw [h0, hev] at this
        simp at this
        exact hn this.symm
      rw [Nat.testBit_add_one]
      exact ih (n / 2) (Nat.div_lt_self (Nat.pos_of_ne_zero hn) (by norm_num)) hhalf

lemma ctz_min : ∀ n : Nat, ∀ j < ctz n, n.testBit j = false := by
  intro n
  induction n using Nat.strong_induction_on with
  | _ n ih =>
    intro j hj
    by_cases hn : n = 0
    · simp [hn]
    · rw [ctz, dif_neg hn] at hj
      by_cases hp : n % 2 = 1
      · rw [if_pos hp] at hj; omega
      · rw [if_neg hp] at hj
        have hev : n % 2 = 0 := Nat.mod_two_eq_zero_or_one n |>.resolve_right hp
        cases j with
        | zero => simp [Nat.testBit_zero, hev]
        | succ k =>
          rw [Nat.testBit_add_one]
          exact ih (n / 2) (Nat.div_lt_self (Nat.pos_of_ne_zero hn) (by norm_num)) k
            (Nat.lt_of_succ_lt_succ hj)

lemma ctz_lt_32 {n : Nat} (hn : n ≠ 0) (h32 : n < 2 ^ 32) : ctz n < 32 := by
  have h1 : 2 ^ ctz n ≤ n := Nat.testBit_implies_ge (ctz_testBit n hn)
  have h2 : 2 ^ ctz n < 2 ^ 32 := lt_of_le_of_lt h1 h32
  exact (Nat.pow_lt_pow_iff_right (by norm_num)).mp h2

/-- Effect of `allowed_types &= ~(1 << mem_type)` (gtb.cpp line 2137) on the
bits of a `uint32_t` value. -/
lemma testBit_and_clear_mask (allowed : Nat) (h32 : allowed < 2 ^ 32)
    {m : Nat} (hm : m < 32) (j : Nat) :
    (allowed &&& ((2 ^ 32 - 1) ^^^ (1 <<< m))).testBit j =
      (allowed.testBit j && !(j == m)) := by
  rw [Nat.testBit_and, Nat.testBit_xor, Nat.one_shiftLeft, Nat.testBit_two_pow,
    Nat.testBit_two_pow_sub_one]
  by_cases hj32 : j < 32
  · by_cases hjm : j = m
    · subst hjm
      simp [hj32]
    · have hmj : ¬m = j := fun h => hjm h.symm
      simp [hj32, hjm, hmj, beq_iff_eq]
  · have hb : allowed.testBit j = false :=
      Nat.testBit_lt_two_pow (lt_of_lt_of_le h32 (Nat.pow_le_pow_right (by norm_num) (by omega)))
    simp [hb]

lemma and_clear_mask_mod_lt {allowed : Nat} (h : allowed ≠ 0) :
    (allowed &&& ((2 ^ 32 - 1) ^^^ (1 <<< ctz allowed))) % 2 ^ 32 < allowed := by
  by_cases h32 : allowed < 2 ^ 32
  · have hle : allowed &&& ((2 ^ 32 - 1) ^^^ (1 <<< ctz allowed)) ≤ allowed := Nat.and_le_left
    rw [Nat.mod_eq_of_lt (lt_of_le_of_lt hle h32)]
    apply lt_of_le_of_ne hle
    intro heq
    have hbit := testBit_and_clear_mask allowed h32 (ctz_lt_32 h h32) (ctz allowed)
    rw [heq, ctz_testBit allowed h] at hbit
    simp at hbit
  · exact lt_of_lt_of_le (Nat.mod_lt _ (by positivity)) (le_of_not_lt h32)

/-- `application::get_memory_type`, gtb.cpp lines 2128-2143: repeatedly
bit-scan `allowed_types` for its lowest set bit `mem_type`
(`_BitScanForward`, which returns 0 exactly when the argument is 0); return
`mem_type` when that memory type's property flags contain all of
`desired_memory_properties`, otherwise clear the bit
(`allowed_types &= ~(1 << mem_type)`, a `uint32_t` operation, hence the
explicit `% 2^32`) and continue; throw the capability exception of lines
2141-2142 when the scan exhausts `allowed_types`. `memoryTypes i` is
`m_memory_properties.memoryTypes[i].propertyFlags`. -/
def get_memory_type (memoryTypes : Nat → Nat) (allowed_types desired_memory_properties : Nat) :
    Except String Nat :=
  if h : allowed_types = 0 then
    Except.error "Could not find needed memory type."
  else
    let mem_type := ctz allowed_types
    if memoryTypes mem_type &&& desired_memory_properties = desired_memory_properties then
      Except.ok mem_type
    else
      get_memory_type memoryTypes
        ((allowed_types &&& ((2 ^ 32 - 1) ^^^ (1 <<< mem_type))) % 2 ^ 32)
        desired_memory_properties
termination_by allowed_types
decreasing_by exact and_clear_mask_mod_lt h

lemma get_memory_type_spec (memoryTypes : Nat → Nat) :
    ∀ allowed desired : Nat, allowed < 2 ^ 32 →
    (∀ m, get_memory_type memoryTypes allowed desired = Except.ok m →
      allowed.testBit m = true ∧ memoryTypes m &&& desired = desired ∧
      ∀ j < m, allowed.testBit j = true → memoryTypes j &&& desired ≠ desired) ∧
    (∀ s, get_memory_type memoryTypes allowed desired = Except.error s →
      s = "Could not find needed memory type." ∧
      ∀ j, allowed.testBit j = true → memoryTypes j &&& desired ≠ desired) := by
  intro allowed
  induction allowed using Nat.strong_induction_on with
  | _ allowed ih =>
    intro desired h32
    by_cases hz : allowed = 0
    · subst hz
      constructor
      · intro m hm
        rw [get_memory_type] at hm
        simp at hm
      · intro s hs
        rw [get_memory_type, dif_pos rfl] at hs
        simp only [Except.error.injEq] at hs
        exact ⟨hs.symm, by simp⟩
    · by_cases hsup : memoryTypes (ctz allowed) &&& desired = desired
      · constructor
        · intro m hm
          rw [get_memory_type, dif_neg hz, if_pos hsup] at hm
          simp only [Except.ok.injEq] at hm
          subst hm
          refine ⟨ctz_testBit allowed hz, hsup, ?_⟩
          intro j hj hbit
          rw [ctz_min allowed j hj] at hbit
          exact absurd hbit (by simp)
        · intro s hs
          rw [get_memory_type, dif_neg hz, if_pos hsup] at hs
          simp at hs
      · have hm32 : ctz allowed < 32 := ctz_lt_32 hz h32
        have hle : allowed &&& ((2 ^ 32 - 1) ^^^ (1 <<< ctz allowed)) ≤ allowed := Nat.and_le_left
        have hmod : (allowed &&& ((2 ^ 32 - 1) ^^^ (1 <<< ctz allowed))) % 2 ^ 32 =
            allowed &&& ((2 ^ 32 - 1) ^^^ (1 <<< ctz allowed)) :=
          Nat.mod_eq_of_lt (lt_of_le_of_lt hle h32)
        have hlt : (allowed &&& ((2 ^ 32 - 1) ^^^ (1 <<< ctz allowed))) % 2 ^ 32 < allowed :=
          and_clear_mask_mod_lt hz
        have heq : get_memory_type memoryTypes allowed desired =
            get_memory_type memoryTypes
              ((allowed &&& ((2 ^ 32 - 1) ^^^ (1 <<< ctz allowed))) % 2 ^ 32) desired := by
          rw [get_memory_type, dif_neg hz, if_neg hsup]
        have hbit : ∀ j, ((allowed &&& ((2 ^ 32 - 1) ^^^ (1 <<< ctz allowed))) % 2 ^ 32).testBit j
            = (allowed.testBit j && !(j == ctz allowed)) := by
          intro j
          rw [hmod]
          exact testBit_and_clear_mask allowed h32 hm32 j
        have h32' : (allowed &&& ((2 ^ 32 - 1) ^^^ (1 <<< ctz allowed))) % 2 ^ 32 < 2 ^ 32 := by
          rw [hmod]; exact lt_of_le_of_lt hle h32
        obtain ⟨ihok, iherr⟩ := ih _ hlt desired h32'
        constructor
        · intro m hm
          rw [heq] at hm
          obtain ⟨hbm, hsm, hmin⟩ := ihok m hm
          rw [hbit m] at hbm
          have hma : allowed.testBit m = true := (Bool.and_eq_true_iff.mp hbm).1
          refine ⟨hma, hsm, ?_⟩
          intro j hj hbj
          by_cases hjc : j = ctz allowed
          · subst hjc; exact hsup
          · apply hmin j hj
            rw [hbit j, hbj]
            simp [hjc]
        · intro s hs
          rw [heq] at hs
          obtain ⟨hmsg, hnone⟩ := iherr s hs
          refine ⟨hmsg, ?_⟩
          intro j hbj
          by_cases hjc : j = ctz allowed
          · subst hjc; exact hsup
          · apply hnone j
            rw [hbit j, hbj]
            simp [hjc]

/-! ## Claim C4 -/

/-- C4: `get_memory_type` scans the allowed memory-type indices in ascending
order and returns the first index whose property flags are a superset of the
requested flags; it raises the capability error exactly when no allowed
index matches. -/
theorem get_memory_type_first_match (memoryTypes : Nat → Nat)
    (allowed desired : Nat) (h32 : allowed < 2 ^ 32) :
    (∀ m, get_memory_type memoryTypes allowed desired = Except.ok m →
      allowed.testBit m = true ∧ memoryTypes m &&& desired = desired ∧
      ∀ j < m, allowed.testBit j = true → memoryTypes j &&& desired ≠ desired) ∧
    (∀ s, get_memory_type memoryTypes allowed desired = Except.error s →
      s = "Could not find needed memory type." ∧
      ∀ j, allowed.testBit j = true → memoryTypes j &&& desired ≠ desired) ∧
    ((∃ j, allowed.testBit j = true ∧ memoryTypes j &&& desired = desired) →
      ∃ m, get_memory_type memoryTypes allowed desired = Except.ok m) := by
  obtain ⟨hok, herr⟩ := get_memory_type_spec memoryTypes allowed desired h32
  refine ⟨hok, herr, ?_⟩
  rintro ⟨j, hbj, hsj⟩
  rcases hres : get_memory_type memoryTypes allowed desired with s | m
  · exact absurd hsj ((herr s hres).2 j hbj)
  · exact ⟨m, rfl⟩

/-- The claim's simulated 4-type memory-property table: only index 2 carries
both `eHostVisible` (0x2) and `eHostCoherent` (0x4). -/
def demo_memory_types : Nat → Nat := fun i => [1, 2, 6, 1].getD i 0

lemma ctz15 : ctz 15 = 0 := by rw [ctz.eq_def]; norm_num

lemma ctz14 : ctz 14 = 1 := by rw [ctz.eq_def, ctz.eq_def]; norm_num

lemma ctz12 : ctz 12 = 2 := by rw [ctz.eq_def, ctz.eq_def, ctz.eq_def]; norm_num

lemma demo0 : demo_memory_types 0 = 1 := rfl

lemma demo1 : demo_memory_types 1 = 2 := rfl

lemma demo2 : demo_memory_types 2 = 6 := rfl

/-- In the 4-type table, requesting host-visible + host-coherent (0x6) with
all four types allowed returns index 2 — not a lower index that only
partially matches. -/
lemma get_memory_type_demo_eval : get_memory_type demo_memory_types 15 6 = Except.ok 2 := by
  rw [get_memory_type.eq_def]
  rw [dif_neg (by norm_num : ¬(15 : Nat) = 0)]
  simp only [ctz15, demo0]
  rw [if_neg (by decide : ¬((1 : Nat) &&& 6 = 6))]
  rw [(by decide : ((15 : Nat) &&& (2 ^ 32 - 1 ^^^ 1 <<< 0)) % 2 ^ 32 = 14)]
  rw [get_memory_type.eq_def]
  rw [dif_neg (by norm_num : ¬(14 : Nat) = 0)]
  simp only [ctz14, demo1]
  rw [if_neg (by decide : ¬((2 : Nat) &&& 6 = 6))]
  rw [(by decide : ((14 : Nat) &&& (2 ^ 32 - 1 ^^^ 1 <<< 1)) % 2 ^ 32 = 12)]
  rw [get_memory_type.eq_def]
  rw [dif_neg (by norm_num : ¬(12 : Nat) = 0)]
  simp only [ctz12, demo2]
  rw [if_pos (by decide : ((6 : Nat) &&& 6 = 6))]

/-- Witness for C4 at the claim's 4-type table: allowed mask 0b1111, desired
flags 0x6; the spec theorem applies and the concrete scan returns index 2. -/
theorem get_memory_type_first_match_witness :
    (15 : Nat) < 2 ^ 32 ∧
    ((∀ m, get_memory_type demo_memory_types 15 6 = Except.ok m →
      Nat.testBit 15 m = true ∧ demo_memory_types m &&& 6 = 6 ∧
      ∀ j < m, Nat.testBit 15 j = true → demo_memory_types j &&& 6 ≠ 6) ∧
    (∀ s, get_memory_type demo_memory_types 15 6 = Except.error s →
      s = "Could not find needed memory type." ∧
      ∀ j, Nat.testBit 15 j = true → demo_memory_types j &&& 6 ≠ 6) ∧
    ((∃ j, Nat.testBit 15 j = true ∧ demo_memory_types j &&& 6 = 6) →
      ∃ m, get_memory_type demo_memory_types 15 6 = Except.ok m)) ∧
    get_memory_type demo_memory_types 15 6 = Except.ok 2 :=
  And.intro (by norm_num)
    (And.intro (get_memory_type_first_match demo_memory_types 15 6 (by norm_num))
      get_memory_type_demo_eval)

/-! ## align_up (gtb.cpp lines 121-124) and the per-draw uniform offsets -/

/-- `gtb::align_up(value, align) = (value + align - 1) & ~(align - 1)` on
`uint32_t`: both the addition and the `~` complement are 32-bit operations,
written here with explicit `% 2^32` wrap (`x - 1` is `x + (2^32 - 1)` mod
`2^32`, and `~y = (2^32 - 1) - y`). -/
def align_up (value align : Nat) : Nat :=
  ((value + align + (2 ^ 32 - 1)) % 2 ^ 32) &&&
    ((2 ^ 32 - 1) - ((align + (2 ^ 32 - 1)) % 2 ^ 32))

lemma and_two_pow_sub {k : Nat} (hk : k ≤ 32) {x : Nat} (hx : x < 2 ^ 32) :
    x &&& (2 ^ 32 - 2 ^ k) = 2 ^ k * (x / 2 ^ k) := by
  have h1 : (2 : Nat) ^ 32 - 2 ^ k = (2 ^ (32 - k) - 1) <<< k := by
    rw [Nat.shiftLeft_eq, Nat.sub_mul, one_mul, ← Nat.pow_add]
    congr 2
    omega
  have h2 : 2 ^ k * (x / 2 ^ k) = (x >>> k) <<< k := by
    rw [Nat.shiftRight_eq_div_pow, Nat.shiftLeft_eq, Nat.mul_comm]
  apply Nat.eq_of_testBit_eq
  intro j
  rw [Nat.testBit_and, h1, h2, Nat.testBit_shiftLeft, Nat.testBit_shiftLeft,
    Nat.testBit_shiftRight, Nat.testBit_two_pow_sub_one]
  by_cases hjk : k ≤ j
  · have hkj : k + (j - k) = j := by omega
    by_cases hj32 : j < 32
    · simp [hjk, hkj, (show j - k < 32 - k by omega)]
    · have hb : x.testBit j = false :=
        Nat.testBit_lt_two_pow
          (lt_of_lt_of_le hx (Nat.pow_le_pow_right (by norm_num) (by omega)))
      simp [hjk, hkj, hb, (show ¬(j - k < 32 - k) by omega)]
  · simp [hjk]

/-- For a power-of-two alignment and no 32-bit overflow, `align_up` is
rounding up to the next multiple of the alignment. -/
lemma align_up_eq {k : Nat} (hk : k ≤ 32) {value : Nat} (hv : value + 2 ^ k ≤ 2 ^ 32) :
    align_up value (2 ^ k) = 2 ^ k * ((value + 2 ^ k - 1) / 2 ^ k) := by
  have hp1 : (1 : Nat) ≤ 2 ^ k := Nat.one_le_two_pow
  have hp32 : (2 : Nat) ^ k ≤ 2 ^ 32 := Nat.pow_le_pow_right (by norm_num) hk
  have ht : (value + 2 ^ k + (2 ^ 32 - 1)) % 2 ^ 32 = value + 2 ^ k - 1 := by
    have h1 : value + 2 ^ k + (2 ^ 32 - 1) = (value + 2 ^ k - 1) + 1 * 2 ^ 32 := by omega
    rw [h1, Nat.add_mul_mod_self_right]
    exact Nat.mod_eq_of_lt (by omega)
  have hu : (2 ^ k + ((2 : Nat) ^ 32 - 1)) % 2 ^ 32 = 2 ^ k - 1 := by
    have h1 : 2 ^ k + ((2 : Nat) ^ 32 - 1) = (2 ^ k - 1) + 1 * 2 ^ 32 := by omega
    rw [h1, Nat.add_mul_mod_self_right]
    exact Nat.mod_eq_of_lt (by omega)
  rw [align_up, ht, hu]
  have hm : (2 : Nat) ^ 32 - 1 - (2 ^ k - 1) = 2 ^ 32 - 2 ^ k := by omega
  rw [hm]
  exact and_two_pow_sub hk (by omega)

lemma align_up_bounds {k : Nat} (hk : k ≤ 32) {value : Nat} (hv : value + 2 ^ k ≤ 2 ^ 32) :
    2 ^ k ∣ align_up value (2 ^ k) ∧
    value ≤ align_up value (2 ^ k) ∧
    align_up value (2 ^ k) ≤ value + 2 ^ k - 1 := by
  rw [align_up_eq hk hv]
  have hdm := Nat.div_add_mod (value + 2 ^ k - 1) (2 ^ k)
  have hmlt := Nat.mod_lt (value + 2 ^ k - 1) (show 0 < 2 ^ k by positivity)
  have hp1 : (1 : Nat) ≤ 2 ^ k := Nat.one_le_two_pow
  refine ⟨Dvd.intro _ rfl, ?_, ?_⟩ <;> omega

/-- `sizeof(glm::mat4)`: the per-draw write at gtb.cpp line 2209 stores one
4x4 float matrix, 64 bytes. -/
def sizeof_mat4 : Nat := 64

/-- The `ubo_offset` values handed to `bindDescriptorSets`
(`dynamic_ubo_offsets[0]`) by the per-draw loop of gtb.cpp lines 2196-2214:
each draw records the current offset and then advances it by
`align_up(ubo_offset + sizeof(glm::mat4), m_ubo_min_field_align)`
(line 2211). `n` is the number of draw records, `cur` the running offset. -/
def draw_ubo_offsets (align : Nat) : Nat → Nat → List Nat
  | 0, _ => []
  | n + 1, cur => cur :: draw_ubo_offsets align n (align_up (cur + sizeof_mat4) align)

/-- gtb.cpp line 2196: `ubo_offset` starts at 0 each frame. -/
def per_frame_ubo_offsets (align n : Nat) : List Nat := draw_ubo_offsets align n 0

lemma draw_ubo_offsets_head (align : Nat) :
    ∀ n cur, 0 < n → (draw_ubo_offsets align n cur).head? = some cur := by
  intro n cur hn
  cases n with
  | zero => omega
  | succ m => rfl

lemma draw_ubo_offsets_spec {k : Nat} (hk : k ≤ 32) :
    ∀ n cur, 2 ^ k ∣ cur → cur + n * (2 ^ k + sizeof_mat4) ≤ 2 ^ 32 →
      (∀ o ∈ draw_ubo_offsets (2 ^ k) n cur, 2 ^ k ∣ o ∧ cur ≤ o) ∧
      (draw_ubo_offsets (2 ^ k) n cur).Chain' (· < ·) := by
  intro n
  induction n with
  | zero => intro cur _ _; exact ⟨by simp [draw_ubo_offsets], by simp [draw_ubo_offsets]⟩
  | succ m ih =>
    intro cur hdvd hbound
    have hexp : (m + 1) * (2 ^ k + sizeof_mat4) =
        m * (2 ^ k + sizeof_mat4) + (2 ^ k + sizeof_mat4) := by ring
    have hs64 : sizeof_mat4 = 64 := rfl
    have hv : (cur + sizeof_mat4) + 2 ^ k ≤ 2 ^ 32 := by omega
    obtain ⟨hdvd', hle', hub'⟩ := align_up_bounds hk hv
    have hp1 : (1 : Nat) ≤ 2 ^ k := Nat.one_le_two_pow
    have hbound' : align_up (cur + sizeof_mat4) (2 ^ k) + m * (2 ^ k + sizeof_mat4) ≤ 2 ^ 32 := by
      omega
    obtain ⟨ihmem, ihchain⟩ := ih (align_up (cur + sizeof_mat4) (2 ^ k))
      (hdvd') hbound'
    constructor
    · intro o ho
      rw [draw_ubo_offsets, List.mem_cons] at ho
      rcases ho with rfl | ho
      · exact ⟨hdvd, le_refl _⟩
      · obtain ⟨h1, h2⟩ := ihmem o ho
        exact ⟨h1, by omega⟩
    · rw [draw_ubo_offsets, List.chain'_cons']
      refine ⟨?_, ihchain⟩
      intro b hb
      cases m with
      | zero => simp [draw_ubo_offsets] at hb
      | succ m' =>
        rw [draw_ubo_offsets_head (2 ^ k) (m' + 1) _ (Nat.succ_pos m')] at hb
        simp only [Option.mem_def, Option.some.injEq] at hb
        subst hb
        omega

lemma draw_ubo_offsets_step (align : Nat) :
    ∀ n cur i x y, (draw_ubo_offsets align n cur)[i]? = some x →
      (draw_ubo_offsets align n cur)[i + 1]? = some y →
      y = align_up (x + sizeof_mat4) align := by
  intro n
  induction n with
  | zero => intro cur i x y hx _; simp [draw_ubo_offsets] at hx
  | succ m ih =>
    intro cur i x y hx hy
    rw [draw_ubo_offsets] at hx hy
    cases i with
    | zero =>
      simp only [List.getElem?_cons_zero, Option.some.injEq] at hx
      subst hx
      rw [List.getElem?_cons_succ] at hy
      cases m with
      | zero => simp [draw_ubo_offsets] at hy
      | succ m' =>
        have := draw_ubo_offsets_head align (m' + 1) (align_up (cur + sizeof_mat4) align)
          (Nat.succ_pos m')
        rw [← List.head?_eq_getElem?] at hy
        rw [this] at hy
        simp only [Option.some.injEq] at hy
        exact hy.symm
    | succ i' =>
      rw [List.getElem?_cons_succ] at hx hy
      exact ih _ i' x y hx hy

/-! ## Claim C6 -/

/-- C6: for a frame with `n` per-draw uniform writes and power-of-two device
alignment `2^k` (no 32-bit overflow over the frame), every offset handed to
the descriptor bind is a multiple of the alignment, the offsets are strictly
increasing, the first offset is 0, and each subsequent offset is the
previous one plus the write size rounded up by `align_up`. -/
theorem ubo_offsets_aligned_increasing (k n : Nat) (hk : k ≤ 32)
    (hbound : n * (2 ^ k + sizeof_mat4) ≤ 2 ^ 32) :
    (∀ o ∈ per_frame_ubo_offsets (2 ^ k) n, 2 ^ k ∣ o) ∧
    (per_frame_ubo_offsets (2 ^ k) n).Chain' (· < ·) ∧
    (0 < n → (per_frame_ubo_offsets (2 ^ k) n).head? = some 0) ∧
    (∀ i x y, (per_frame_ubo_offsets (2 ^ k) n)[i]? = some x →
      (per_frame_ubo_offsets (2 ^ k) n)[i + 1]? = some y →
      y = align_up (x + sizeof_mat4) (2 ^ k)) := by
  obtain ⟨hmem, hchain⟩ := draw_ubo_offsets_spec hk n 0 (Dvd.intro 0 rfl) (by omega)
  exact ⟨fun o ho => (hmem o ho).1, hchain,
    fun hn => draw_ubo_offsets_head (2 ^ k) n 0 hn,
    fun i x y hx hy => draw_ubo_offsets_step (2 ^ k) n 0 i x y hx hy⟩

/-- Witness for C6 at alignment 256 and three draws, where the concrete
offset sequence is `[0, 256, 512]` (the 64-byte writes are padded out to
the 256-byte alignment). -/
theorem ubo_offsets_aligned_increasing_witness :
    ((8 : Nat) ≤ 32 ∧ 3 * (2 ^ 8 + sizeof_mat4) ≤ 2 ^ 32) ∧
    ((∀ o ∈ per_frame_ubo_offsets (2 ^ 8) 3, 2 ^ 8 ∣ o) ∧
    (per_frame_ubo_offsets (2 ^ 8) 3).Chain' (· < ·) ∧
    (0 < 3 → (per_frame_ubo_offsets (2 ^ 8) 3).head? = some 0) ∧
    (∀ i x y, (per_frame_ubo_offsets (2 ^ 8) 3)[i]? = some x →
      (per_frame_ubo_offsets (2 ^ 8) 3)[i + 1]? = some y →
      y = align_up (x + sizeof_mat4) (2 ^ 8))) ∧
    per_frame_ubo_offsets (2 ^ 8) 3 = [0, 256, 512] :=
  And.intro (And.intro (by norm_num) (by norm_num [sizeof_mat4]))
    (And.intro (ubo_offsets_aligned_increasing 8 3 (by norm_num) (by norm_num [sizeof_mat4]))
      (by decide))

/-! ## gltf_component_size (gtb.cpp lines 1856-1874) and gltf_load_ibo -/

/-- `TINYGLTF_COMPONENT_TYPE_BYTE` (tinygltf header; the GL enum 5120). The
switch argument is a C `int`. -/
def TINYGLTF_COMPONENT_TYPE_BYTE : Int := 5120

/-- `TINYGLTF_COMPONENT_TYPE_UNSIGNED_BYTE` (5121). -/
def TINYGLTF_COMPONENT_TYPE_UNSIGNED_BYTE : Int := 5121

/-- `TINYGLTF_COMPONENT_TYPE_SHORT` (5122). -/
def TINYGLTF_COMPONENT_TYPE_SHORT : Int := 5122

/-- `TINYGLTF_COMPONENT_TYPE_UNSIGNED_SHORT` (5123). -/
def TINYGLTF_COMPONENT_TYPE_UNSIGNED_SHORT : Int := 5123

/-- `TINYGLTF_COMPONENT_TYPE_INT` (5124). -/
def TINYGLTF_COMPONENT_TYPE_INT : Int := 5124

/-- `TINYGLTF_COMPONENT_TYPE_UNSIGNED_INT` (5125). -/
def TINYGLTF_COMPONENT_TYPE_UNSIGNED_INT : Int := 5125

/-- `TINYGLTF_COMPONENT_TYPE_FLOAT` (5126). -/
def TINYGLTF_COMPONENT_TYPE_FLOAT : Int := 5126

/-- `TINYGLTF_COMPONENT_TYPE_DOUBLE` (5130). -/
def TINYGLTF_COMPONENT_TYPE_DOUBLE : Int := 5130

/-- The eight component codes with `case` labels in the switch of
gtb.cpp lines 1859-1872. -/
def gltf_recognized_components : List Int :=
  [TINYGLTF_COMPONENT_TYPE_BYTE, TINYGLTF_COMPONENT_TYPE_UNSIGNED_BYTE,
   TINYGLTF_COMPONENT_TYPE_SHORT, TINYGLTF_COMPONENT_TYPE_UNSIGNED_SHORT,
   TINYGLTF_COMPONENT_TYPE_INT, TINYGLTF_COMPONENT_TYPE_UNSIGNED_INT,
   TINYGLTF_COMPONENT_TYPE_FLOAT, TINYGLTF_COMPONENT_TYPE_DOUBLE]

/-- `application::gltf_component_size`, gtb.cpp lines 1857-1874: the switch
on the component code; the fall-through after the switch returns 0. -/
def gltf_component_size (component : Int) : Nat :=
  if component = TINYGLTF_COMPONENT_TYPE_BYTE ∨
      component = TINYGLTF_COMPONENT_TYPE_UNSIGNED_BYTE then 1
  else if component = TINYGLTF_COMPONENT_TYPE_SHORT ∨
      component = TINYGLTF_COMPONENT_TYPE_UNSIGNED_SHORT then 2
  else if component = TINYGLTF_COMPONENT_TYPE_INT ∨
      component = TINYGLTF_COMPONENT_TYPE_UNSIGNED_INT ∨
      component = TINYGLTF_COMPONENT_TYPE_FLOAT then 4
  else if component = TINYGLTF_COMPONENT_TYPE_DOUBLE then 8
  else 0

/-- gtb.cpp line 1697: `node_draw.first_index = static_cast<uint32_t>(
index_accessor.byteOffset / gltf_component_size(index_accessor.componentType))`;
the `uint32_t` cast is the explicit `% 2^32`. -/
def gltf_load_ibo_first_index (byteOffset : Nat) (componentType : Int) : Nat :=
  (byteOffset / gltf_component_size componentType) % 2 ^ 32

/-! ## Claim C10 -/

/-- C10: `gltf_component_size` returns 1 for byte/unsigned-byte, 2 for
short/unsigned-short, 4 for int/unsigned-int/float, 8 for double, and 0 for
every other input; `gltf_load_ibo` computes `first_index` by dividing the
accessor byte offset by this value, so for an unrecognized component code
that division's divisor is 0. -/
theorem gltf_component_size_table :
    (gltf_component_size TINYGLTF_COMPONENT_TYPE_BYTE = 1 ∧
     gltf_component_size TINYGLTF_COMPONENT_TYPE_UNSIGNED_BYTE = 1 ∧
     gltf_component_size TINYGLTF_COMPONENT_TYPE_SHORT = 2 ∧
     gltf_component_size TINYGLTF_COMPONENT_TYPE_UNSIGNED_SHORT = 2 ∧
     gltf_component_size TINYGLTF_COMPONENT_TYPE_INT = 4 ∧
     gltf_component_size TINYGLTF_COMPONENT_TYPE_UNSIGNED_INT = 4 ∧
     gltf_component_size TINYGLTF_COMPONENT_TYPE_FLOAT = 4 ∧
     gltf_component_size TINYGLTF_COMPONENT_TYPE_DOUBLE = 8) ∧
    (∀ c : Int, c ∉ gltf_recognized_components → gltf_component_size c = 0) ∧
    (∀ (byteOffset : Nat) (c : Int),
      gltf_load_ibo_first_index byteOffset c =
        (byteOffset / gltf_component_size c) % 2 ^ 32) := by
  refine ⟨by decide, ?_, fun _ _ => rfl⟩
  intro c hc
  simp only [gltf_recognized_components, List.mem_cons, List.not_mem_nil, or_false,
    not_or] at hc
  obtain ⟨h1, h2, h3, h4, h5, h6, h7, h8⟩ := hc
  rw [gltf_component_size]
  rw [if_neg (by tauto), if_neg (by tauto), if_neg (by tauto), if_neg h8]

/-- Witness for C10 at the unrecognized component code 9999: the size is 0,
so the `first_index` division's divisor is 0 (and `first_index` itself
evaluates to 0 under `Nat` division). -/
theorem gltf_component_size_table_witness :
    ((9999 : Int) ∉ gltf_recognized_components) ∧
    gltf_component_size 9999 = 0 ∧
    gltf_load_ibo_first_index 131 9999 =
      (131 / gltf_component_size 9999) % 2 ^ 32 :=
  And.intro (by decide)
    (And.intro ((gltf_component_size_table.2.1) 9999 (by decide))
      ((gltf_component_size_table.2.2) 131 9999))

/-! ## Static-resource uploads (gtb.cpp lines 1910-1942 and 1983-2107)

`create_static_buffer` and `create_texture` are straight-line C++ with no
try/catch; every `vk::` wrapper call can throw. The embedding passes an
environment of per-call-site success flags: a `false` flag means that call
throws, and the function's exception propagation is the early return of the
corresponding error value. The outcome records whether the staging buffer is
still allocated when the function exits (`stagingLive`), the bytes memcpy'd
into the staging buffer, the bytes held by the destination buffer after the
submitted copy completed (`destContents`), and the ordered trace of the
performed operations. -/

/-- `vk::BufferUsageFlagBits::eTransferSrc` (0x1). -/
def eTransferSrc : Nat := 1

/-- `vk::BufferUsageFlagBits::eTransferDst` (0x2). -/
def eTransferDst : Nat := 2

/-- `vk::BufferUsageFlagBits::eIndexBuffer` (0x40). -/
def eIndexBuffer : Nat := 64

/-- `vk::MemoryPropertyFlagBits::eDeviceLocal` (0x1). -/
def eDeviceLocal : Nat := 1

/-- `vk::MemoryPropertyFlagBits::eHostVisible` (0x2). -/
def eHostVisible : Nat := 2

/-- `vk::MemoryPropertyFlagBits::eHostCoherent` (0x4). -/
def eHostCoherent : Nat := 4

/-- `vk::ImageUsageFlagBits::eSampled` (0x4). -/
def eSampled : Nat := 4

/-- gtb.cpp line 578: staging buffers are host-visible + host-coherent. -/
def staging_memory_properties : Nat := eHostVisible ||| eHostCoherent

/-- gtb.cpp line 581: optimized buffers/images are device-local. -/
def optimized_memory_properties : Nat := eDeviceLocal

/-- `application::device_buffer` as created by `create_device_buffer`
(gtb.cpp lines 1951-1975): a buffer handle plus its memory allocation,
remembered here with its creation usage, size and memory-property class. -/
structure DeviceBuffer where
  usage : Nat
  size : Nat
  memProps : Nat
deriving DecidableEq, Repr

/-- `application::device_image` as created by `create_texture`. -/
structure DeviceImage where
  usage : Nat
  memProps : Nat
deriving DecidableEq, Repr

/-- The operations the two upload functions perform, in source order.
`createBuffer` stands for the whole of `create_device_buffer` (createBuffer +
allocateMemory + bindBufferMemory); `destroyBuffer`/`freeMemory` are the two
calls of `cleanup_device_buffer` (gtb.cpp lines 1977-1981); `ret` is the
function returning normally. -/
inductive UploadEv where
  | createBuffer (usage size memProps : Nat)
  | mapMemory
  | memcpy (bytes : List Nat)
  | unmapMemory
  | createImage (usage : Nat)
  | allocImageMemory (memProps : Nat)
  | createImageView
  | beginOneTime
  | pipelineBarrier
  | copyBuffer (size : Nat)
  | copyBufferToImage
  | endCmd
  | submit
  | waitIdle
  | freeCmdBuf
  | destroyBuffer
  | freeMemory
  | ret
deriving DecidableEq, Repr

/-- Success flags for the throwing call sites of `create_static_buffer`:
staging `create_device_buffer` (line 1916), `mapMemory` (1919), optimized
`create_device_buffer` (1924), `create_one_time_command_buffer` (1927) and
`finish_one_time_command_buffer`'s submit/waitIdle (1935). -/
structure UploadEnv where
  stagingAlloc : Bool
  mapOk : Bool
  optimizedAlloc : Bool
  cmdAlloc : Bool
  submitOk : Bool
deriving DecidableEq, Repr

/-- Observable outcome of one `create_static_buffer` run. -/
structure UploadOutcome where
  result : Except String DeviceBuffer
  stagingLive : Bool
  stagingContents : List Nat
  destContents : Option (List Nat)
  trace : List UploadEv
deriving DecidableEq, Repr

/-- `application::create_static_buffer`, gtb.cpp lines 1910-1942: allocate a
transfer-source staging buffer sized to the payload in host-visible +
host-coherent memory; map it, memcpy the payload, unmap; allocate the
device-local destination with the requested usage plus `eTransferDst`;
record a full-size `copyBuffer`; `finish_one_time_command_buffer` ends the
command buffer, submits it on the single queue and waits for queue idle;
then free the command buffer and destroy the staging buffer. A throwing
call exits with the state as of that point — there is no cleanup handler. -/
def create_static_buffer (env : UploadEnv) (flags : Nat) (data : List Nat) : UploadOutcome :=
  if env.stagingAlloc = false then
    ⟨Except.error "vk::Device::createBuffer/allocateMemory (staging)", false, [], none, []⟩
  else
    let t1 : List UploadEv := [.createBuffer eTransferSrc data.length staging_memory_properties]
    if env.mapOk = false then
      ⟨Except.error "vk::Device::mapMemory", true, [], none, t1⟩
    else
      let t2 := t1 ++ [.mapMemory, .memcpy data, .unmapMemory]
      if env.optimizedAlloc = false then
        ⟨Except.error "vk::Device::createBuffer/allocateMemory (optimized)", true, data, none, t2⟩
      else
        let optimized : DeviceBuffer :=
          ⟨flags ||| eTransferDst, data.length, optimized_memory_properties⟩
        let t3 := t2 ++ [.createBuffer (flags ||| eTransferDst) data.length
          optimized_memory_properties]
        if env.cmdAlloc = false then
          ⟨Except.error "vk::Device::allocateCommandBuffers", true, data, none, t3⟩
        else
          let t4 := t3 ++ [.beginOneTime, .copyBuffer data.length]
          if env.submitOk = false then
            ⟨Except.error "vk::Queue::submit", true, data, none, t4 ++ [.endCmd]⟩
          else
            ⟨Except.ok optimized, false, data, some data,
              t4 ++ [.endCmd, .submit, .waitIdle, .freeCmdBuf, .destroyBuffer, .freeMemory, .ret]⟩

/-- Success flags for the throwing call sites of `create_texture`: the gli
load succeeding (gtb.cpp line 1986), staging `create_device_buffer` (1992),
`mapMemory` (1995), `createImage` (2034), image memory
`get_memory_type`/`allocateMemory` (2041-2042), `createImageView` (2059),
`create_one_time_command_buffer` (2062) and the submit/waitIdle (2100). -/
structure TextureEnv where
  loadOk : Bool
  stagingAlloc : Bool
  mapOk : Bool
  imageCreate : Bool
  imageAlloc : Bool
  viewCreate : Bool
  cmdAlloc : Bool
  submitOk : Bool
deriving DecidableEq, Repr

/-- Observable outcome of one `create_texture` run. -/
structure TextureOutcome where
  result : Except String DeviceImage
  stagingLive : Bool
  stagingContents : List Nat
  trace : List UploadEv
deriving DecidableEq, Repr

/-- `application::create_texture`, gtb.cpp lines 1983-2107: load the texture
(a failed load throws `file_exception` before any staging allocation), then
the staging alloc + map/memcpy/unmap, image creation, image memory
allocation and bind, image view creation, one-time command buffer with
barrier / copyBufferToImage / barrier, submit + waitIdle, free the command
buffer and destroy the staging buffer. As in `create_static_buffer`, a
throwing call exits with the state as of that point. -/
def create_texture (env : TextureEnv) (texData : List Nat) : TextureOutcome :=
  if env.loadOk = false then
    ⟨Except.error "file_exception", false, [], []⟩
  else if env.stagingAlloc = false then
    ⟨Except.error "vk::Device::createBuffer/allocateMemory (staging)", false, [], []⟩
  else
    let t1 : List UploadEv := [.createBuffer eTransferSrc texData.length staging_memory_properties]
    if env.mapOk = false then
      ⟨Except.error "vk::Device::mapMemory", true, [], t1⟩
    else
      let t2 := t1 ++ [.mapMemory, .memcpy texData, .unmapMemory]
      if env.imageCreate = false then
        ⟨Except.error "vk::Device::createImage", true, texData, t2⟩
      else
        let t3 := t2 ++ [.createImage (eSampled ||| eTransferDst)]
        if env.imageAlloc = false then
          ⟨Except.error "get_memory_type/allocateMemory", true, texData, t3⟩
        else
          let t4 := t3 ++ [.allocImageMemory optimized_memory_properties]
          if env.viewCreate = false then
            ⟨Except.error "vk::Device::createImageView", true, texData, t4⟩
          else
            let t5 := t4 ++ [.createImageView]
            if env.cmdAlloc = false then
              ⟨Except.error "vk::Device::allocateCommandBuffers", true, texData, t5⟩
            else
              let t6 := t5 ++ [.beginOneTime, .pipelineBarrier, .copyBufferToImage,
                .pipelineBarrier]
              if env.submitOk = false then
                ⟨Except.error "vk::Queue::submit", true, texData, t6 ++ [.endCmd]⟩
              else
                ⟨Except.ok ⟨eSampled ||| eTransferDst, optimized_memory_properties⟩, false,
                  texData,
                  t6 ++ [.endCmd, .submit, .waitIdle, .freeCmdBuf, .destroyBuffer,
                    .freeMemory, .ret]⟩

/-- The environment in which no Vulkan call of `create_static_buffer`
throws. -/
def upload_env_ok : UploadEnv := ⟨true, true, true, true, true⟩

/-- The environment in which the load succeeds and no Vulkan call of
`create_texture` throws. -/
def texture_env_ok : TextureEnv := ⟨true, true, true, true, true, true, true, true⟩

/-! ## Claim C3 -/

/-- C3 counterexample: when the allocation of the optimized destination
buffer throws (after the staging buffer was allocated and filled), the error
propagates with the staging buffer still allocated — an upload error path
does leak the staging buffer, because the function has no cleanup handler. -/
theorem staging_buffer_leaks_on_error_path :
    (create_static_buffer ⟨true, true, false, true, true⟩ eIndexBuffer [1, 2, 3]).result =
      Except.error "vk::Device::createBuffer/allocateMemory (optimized)" ∧
    (create_static_buffer ⟨true, true, false, true, true⟩ eIndexBuffer [1, 2, 3]).stagingLive
      = true ∧
    UploadEv.destroyBuffer ∉
      (create_static_buffer ⟨true, true, false, true, true⟩ eIndexBuffer [1, 2, 3]).trace := by
  decide

/-- C3 (amended): on the path where no call throws, both
`create_static_buffer` and `create_texture` destroy the staging buffer and
free its memory — unconditionally, with no branch on whether the copy
succeeded — before returning; but a path that raises an error after the
staging allocation exits with the staging buffer still allocated. -/
theorem staging_destroyed_on_success (flags : Nat) (data texData : List Nat) :
    (create_static_buffer upload_env_ok flags data).stagingLive = false ∧
    (∃ pre, (create_static_buffer upload_env_ok flags data).trace =
      pre ++ [UploadEv.destroyBuffer, UploadEv.freeMemory, UploadEv.ret]) ∧
    (create_texture texture_env_ok texData).stagingLive = false ∧
    (∃ pre, (create_texture texture_env_ok texData).trace =
      pre ++ [UploadEv.destroyBuffer, UploadEv.freeMemory, UploadEv.ret]) := by
  refine ⟨rfl, ⟨?_, ?_⟩, rfl, ⟨?_, ?_⟩⟩
  · exact [.createBuffer eTransferSrc data.length staging_memory_properties,
      .mapMemory, .memcpy data, .unmapMemory,
      .createBuffer (flags ||| eTransferDst) data.length optimized_memory_properties,
      .beginOneTime, .copyBuffer data.length, .endCmd, .submit, .waitIdle, .freeCmdBuf]
  · rfl
  · exact [.createBuffer eTransferSrc texData.length staging_memory_properties,
      .mapMemory, .memcpy texData, .unmapMemory, .createImage (eSampled ||| eTransferDst),
      .allocImageMemory optimized_memory_properties, .createImageView,
      .beginOneTime, .pipelineBarrier, .copyBufferToImage, .pipelineBarrier,
      .endCmd, .submit, .waitIdle, .freeCmdBuf]
  · rfl

/-! ## Claim C5 -/

/-- C5: for every payload, the non-throwing run of `create_static_buffer`
allocates a host-visible + host-coherent staging buffer sized to the
payload as its first operation, copies the payload into it byte for byte,
creates the device-local destination with the requested usage plus
transfer-destination sized to the payload, records a full-size buffer copy,
and ends with submit followed by a blocking queue-idle wait before the
staging cleanup and the return — after which the destination holds exactly
the uploaded bytes. -/
theorem create_static_buffer_exact_upload (flags : Nat) (data : List Nat) :
    (create_static_buffer upload_env_ok flags data).result =
      Except.ok ⟨flags ||| eTransferDst, data.length, optimized_memory_properties⟩ ∧
    (create_static_buffer upload_env_ok flags data).trace.head? =
      some (UploadEv.createBuffer eTransferSrc data.length staging_memory_properties) ∧
    (create_static_buffer upload_env_ok flags data).stagingContents = data ∧
    (create_static_buffer upload_env_ok flags data).destContents = some data ∧
    UploadEv.copyBuffer data.length ∈ (create_static_buffer upload_env_ok flags data).trace ∧
    (∃ pre, (create_static_buffer upload_env_ok flags data).trace =
      pre ++ [UploadEv.endCmd, UploadEv.submit, UploadEv.waitIdle, UploadEv.freeCmdBuf,
        UploadEv.destroyBuffer, UploadEv.freeMemory, UploadEv.ret]) := by
  refine ⟨rfl, rfl, rfl, rfl, ?_, ?_⟩
  · simp [create_static_buffer, upload_env_ok]
  · exact ⟨[.createBuffer eTransferSrc data.length staging_memory_properties,
      .mapMemory, .memcpy data, .unmapMemory,
      .createBuffer (flags ||| eTransferDst) data.length optimized_memory_properties,
      .beginOneTime, .copyBuffer data.length], rfl⟩

/-! ## The frame-loop trace of application::draw (gtb.cpp lines 2150-2244)
and fence creation in per_frame_init (lines 1242-1279) -/

/-- The operations of one `application::draw` tick, in source order. The
"slot" events concern the per-image command buffer, completion fence and
uniform buffer selected by the acquired image index (lines 2160-2163);
`resetImageReadyFence`/`waitImageReadyFence` concern the separate
`m_next_image_ready` fence. -/
inductive DrawEv where
  | resetImageReadyFence
  | acquireImage
  | waitSlotFence
  | resetSlotFence
  | resetCmdBuffer
  | beginCmdBuffer
  | beginRenderPass
  | bindPipeline
  | mapUniform
  | bindGeometry (i : Nat)
  | writeUniform (i : Nat)
  | bindDescriptorSets (i : Nat)
  | drawIndexed (i : Nat)
  | unmapUniform
  | endRenderPass
  | endCmdBuffer
  | waitImageReadyFence
  | submitQueue
  | presentImage
deriving DecidableEq, Repr

/-- The straight-line trace of `application::draw` for a frame with `n` draw
records (gtb.cpp lines 2150-2244): reset the image-ready fence and acquire
(2155-2156), wait on and reset the slot's completion fence (2166-2167),
reset and begin the slot's command buffer (2170-2174), begin the render pass
and bind the pipeline (2188-2191), map the slot's uniform buffer (2195),
then per draw record bind geometry, write the transform into the uniform
buffer, bind descriptor sets and draw (2199-2221), unmap, end, wait for the
acquired image, submit with the slot fence, present (2224-2243). -/
def draw_trace (n : Nat) : List DrawEv :=
  [.resetImageReadyFence, .acquireImage, .waitSlotFence, .resetSlotFence, .resetCmdBuffer,
   .beginCmdBuffer, .beginRenderPass, .bindPipeline, .mapUniform]
  ++ ((List.range n).flatMap (fun i =>
      [.bindGeometry i, .writeUniform i, .bindDescriptorSets i, .drawIndexed i])
  ++ [.unmapUniform, .endRenderPass, .endCmdBuffer, .waitImageReadyFence, .submitQueue,
      .presentImage])

/-- `vk::FenceCreateFlagBits::eSignaled` (0x1). -/
def vk_fence_create_signaled : Nat := 1

/-- `application::per_frame_init`, gtb.cpp lines 1271-1278: one fence per
frame in flight, every one created with
`fence_create_info.flags = vk::FenceCreateFlagBits::eSignaled`. -/
def per_frame_command_fence_flags (framesInFlight : Nat) : List Nat :=
  List.replicate framesInFlight vk_fence_create_signaled

/-! ## Claim C8 -/

/-- C8: in every `draw` tick the only events preceding the wait on the
slot's completion fence are the image-ready fence reset and the image
acquisition — the slot fence reset, the command-buffer reset and re-record,
the uniform-buffer map and every per-draw uniform write all come after the
fence wait; and every slot completion fence is created with the signaled
flag set, so the first tick's wait does not block. -/
theorem slot_fence_wait_precedes_reuse (n m : Nat) :
    (∃ pre post, draw_trace n = pre ++ DrawEv.waitSlotFence :: post ∧
      DrawEv.resetSlotFence ∉ pre ∧
      DrawEv.resetCmdBuffer ∉ pre ∧
      DrawEv.beginCmdBuffer ∉ pre ∧
      DrawEv.mapUniform ∉ pre ∧
      (∀ i, DrawEv.writeUniform i ∉ pre)) ∧
    (∀ f ∈ per_frame_command_fence_flags m,
      f &&& vk_fence_create_signaled = vk_fence_create_signaled) := by
  constructor
  · refine ⟨[DrawEv.resetImageReadyFence, DrawEv.acquireImage],
      [DrawEv.resetSlotFence, DrawEv.resetCmdBuffer, DrawEv.beginCmdBuffer,
       DrawEv.beginRenderPass, DrawEv.bindPipeline, DrawEv.mapUniform]
      ++ ((List.range n).flatMap (fun i =>
          [DrawEv.bindGeometry i, DrawEv.writeUniform i, DrawEv.bindDescriptorSets i,
           DrawEv.drawIndexed i])
      ++ [DrawEv.unmapUniform, DrawEv.endRenderPass, DrawEv.endCmdBuffer,
          DrawEv.waitImageReadyFence, DrawEv.submitQueue, DrawEv.presentImage]),
      rfl, by decide, by decide, by decide, by decide, ?_⟩
    intro i
    simp
  · intro f hf
    rw [per_frame_command_fence_flags] at hf
    rw [List.eq_of_mem_replicate hf]
    decide

/-! ## Teardown traces (gtb.cpp lines 639-656 and 720-755) -/

/-- The teardown operations of `application::cleanup` and
`application::vk_cleanup`, in source order. The seven `...Cleanup` events
are the sub-teardown calls of `cleanup` (lines 645-651); the `destroy...`
events are the individual Vulkan destructions of `vk_cleanup`. -/
inductive CleanupEv where
  | deviceWaitIdle
  | texturesCleanup
  | staticBuffersCleanup
  | pipelineCleanup
  | perFrameCleanup
  | samplerCleanup
  | renderPassCleanup
  | shadersCleanup
  | destroyNextImageFence
  | destroyDepthImage (i : Nat)
  | destroyColorView (i : Nat)
  | destroySwapChain
  | destroyDevice
  | destroySurface
  | destroyDebugReportCallback
  | destroyInstance
  | destroyWindow
  | glfwTerminate
  | closeLog
deriving DecidableEq, Repr

/-- Which optional handles exist at teardown time (the `if (m_...)` guards
in the source) and how many swap-chain depth images and color views were
created. -/
structure TeardownCfg where
  hasDevice : Bool
  hasSwapChain : Bool
  hasSurface : Bool
  hasDebugCallback : Bool
  hasInstance : Bool
  hasNextImageFence : Bool
  hasWindow : Bool
  numDepthImages : Nat
  numColorImages : Nat
deriving DecidableEq, Repr

/-- `application::vk_cleanup`, gtb.cpp lines 720-755: destroy the
image-ready fence, the swap-chain depth images, the swap-chain color image
views, the swap chain, the device, the surface, the debug-report callback
and the instance, in that order, each guarded by handle existence. -/
def vk_cleanup_trace (c : TeardownCfg) : List CleanupEv :=
  (if c.hasNextImageFence then [CleanupEv.destroyNextImageFence] else [])
  ++ (List.range c.numDepthImages).map CleanupEv.destroyDepthImage
  ++ (List.range c.numColorImages).map CleanupEv.destroyColorView
  ++ (if c.hasSwapChain then [CleanupEv.destroySwapChain] else [])
  ++ (if c.hasDevice then [CleanupEv.destroyDevice] else [])
  ++ (if c.hasSurface then [CleanupEv.destroySurface] else [])
  ++ (if c.hasDebugCallback then [CleanupEv.destroyDebugReportCallback] else [])
  ++ (if c.hasInstance then [CleanupEv.destroyInstance] else [])

/-- `application::cleanup`, gtb.cpp lines 639-656: a device-wide
`waitIdle` when a device exists, then the seven sub-teardowns, then
`vk_cleanup`, then `glfw_cleanup` (destroy window + terminate) and closing
the log stream. -/
def cleanup_trace (c : TeardownCfg) : List CleanupEv :=
  (if c.hasDevice then [CleanupEv.deviceWaitIdle] else [])
  ++ [CleanupEv.texturesCleanup, CleanupEv.staticBuffersCleanup, CleanupEv.pipelineCleanup,
      CleanupEv.perFrameCleanup, CleanupEv.samplerCleanup, CleanupEv.renderPassCleanup,
      CleanupEv.shadersCleanup]
  ++ vk_cleanup_trace c
  ++ (if c.hasWindow then [CleanupEv.destroyWindow] else [])
  ++ [CleanupEv.glfwTerminate, CleanupEv.closeLog]

/-- The configuration of a normal full teardown: every handle exists. -/
def full_teardown (nDepth nColor : Nat) : TeardownCfg :=
  ⟨true, true, true, true, true, true, true, nDepth, nColor⟩

/-! ## Claim C9 -/

/-- C9: in a full teardown the device-wide idle wait is the very first
operation (hence it precedes every destruction), each of the four core
destructions happens exactly once, and they occur in the strict order
swap chain, then device, then surface, then instance, with every per-image
depth image and color view destroyed before the swap chain (all of them in
the `mid` segment preceding the destruction block). -/
theorem teardown_order (nDepth nColor : Nat) :
    (cleanup_trace (full_teardown nDepth nColor)).head? = some CleanupEv.deviceWaitIdle ∧
    (cleanup_trace (full_teardown nDepth nColor)).count CleanupEv.deviceWaitIdle = 1 ∧
    (cleanup_trace (full_teardown nDepth nColor)).count CleanupEv.destroySwapChain = 1 ∧
    (cleanup_trace (full_teardown nDepth nColor)).count CleanupEv.destroyDevice = 1 ∧
    (cleanup_trace (full_teardown nDepth nColor)).count CleanupEv.destroySurface = 1 ∧
    (cleanup_trace (full_teardown nDepth nColor)).count CleanupEv.destroyInstance = 1 ∧
    (∃ mid tail, cleanup_trace (full_teardown nDepth nColor) =
        CleanupEv.deviceWaitIdle :: mid
          ++ [CleanupEv.destroySwapChain, CleanupEv.destroyDevice, CleanupEv.destroySurface,
              CleanupEv.destroyDebugReportCallback, CleanupEv.destroyInstance] ++ tail ∧
      (∀ i < nDepth, CleanupEv.destroyDepthImage i ∈ mid) ∧
      (∀ i < nColor, CleanupEv.destroyColorView i ∈ mid)) := by
  have htr : cleanup_trace (full_teardown nDepth nColor) =
      CleanupEv.deviceWaitIdle ::
        ([CleanupEv.texturesCleanup, CleanupEv.staticBuffersCleanup, CleanupEv.pipelineCleanup,
          CleanupEv.perFrameCleanup, CleanupEv.samplerCleanup, CleanupEv.renderPassCleanup,
          CleanupEv.shadersCleanup, CleanupEv.destroyNextImageFence]
         ++ (List.range nDepth).map CleanupEv.destroyDepthImage
         ++ (List.range nColor).map CleanupEv.destroyColorView)
        ++ [CleanupEv.destroySwapChain, CleanupEv.destroyDevice, CleanupEv.destroySurface,
            CleanupEv.destroyDebugReportCallback, CleanupEv.destroyInstance]
        ++ [CleanupEv.destroyWindow, CleanupEv.glfwTerminate, CleanupEv.closeLog] := by
    simp [cleanup_trace, vk_cleanup_trace, full_teardown]
  have hzd : ∀ e : CleanupEv, (∀ i : Nat, CleanupEv.destroyDepthImage i ≠ e) →
      List.count e ((List.range nDepth).map CleanupEv.destroyDepthImage) = 0 := by
    intro e he
    rw [List.count_eq_zero]
    simp only [List.mem_map, not_exists, not_and]
    intro i _
    exact he i
  have hzc : ∀ e : CleanupEv, (∀ i : Nat, CleanupEv.destroyColorView i ≠ e) →
      List.count e ((List.range nColor).map CleanupEv.destroyColorView) = 0 := by
    intro e he
    rw [List.count_eq_zero]
    simp only [List.mem_map, not_exists, not_and]
    intro i _
    exact he i
  refine ⟨?_, ?_, ?_, ?_, ?_, ?_, ?_⟩
  · rw [htr]; rfl
  · rw [htr]
    have h1 := hzd CleanupEv.deviceWaitIdle (by intro i; simp)
    have h2 := hzc CleanupEv.deviceWaitIdle (by intro i; simp)
    simp [List.count_cons, List.count_append, h1, h2]
  · rw [htr]
    have h1 := hzd CleanupEv.destroySwapChain (by intro i; simp)
    have h2 := hzc CleanupEv.destroySwapChain (by intro i; simp)
    simp [List.count_cons, List.count_append, h1, h2]
  · rw [htr]
    have h1 := hzd CleanupEv.destroyDevice (by intro i; simp)
    have h2 := hzc CleanupEv.destroyDevice (by intro i; simp)
    simp [List.count_cons, List.count_append, h1, h2]
  · rw [htr]
    have h1 := hzd CleanupEv.destroySurface (by intro i; simp)
    have h2 := hzc CleanupEv.destroySurface (by intro i; simp)
    simp [List.count_cons, List.count_append, h1, h2]
  · rw [htr]
    have h1 := hzd CleanupEv.destroyInstance (by intro i; simp)
    have h2 := hzc CleanupEv.destroyInstance (by intro i; simp)
    simp [List.count_cons, List.count_append, h1, h2]
  · refine ⟨[CleanupEv.texturesCleanup, CleanupEv.staticBuffersCleanup, CleanupEv.pipelineCleanup,
      CleanupEv.perFrameCleanup, CleanupEv.samplerCleanup, CleanupEv.renderPassCleanup,
      CleanupEv.shadersCleanup, CleanupEv.destroyNextImageFence]
       ++ (List.range nDepth).map CleanupEv.destroyDepthImage
       ++ (List.range nColor).map CleanupEv.destroyColorView,
      [CleanupEv.destroyWindow, CleanupEv.glfwTerminate, CleanupEv.closeLog], ?_, ?_, ?_⟩
    · rw [htr]
    · intro i hi
      simp
      omega
    · intro i hi
      simp
      omega

end Gtb
